import Mathlib

/-!
Shallow embedding of the funnel-construction and conversion-rate logic of the
Neighbor-analysis repository (a collection of Python analysis scripts), together
with theorems settling the spec's claims about that logic.

Conventions of the embedding:
* actor ids (`merged_amplitude_id`, `renter_user_id`) are `ℕ`;
* distinct-id populations are `Finset ℕ` (Python `set(...unique())`);
* timestamps are `ℤ` with the usual order (`pd.to_datetime` values are totally
  ordered and only compared with `≤` here);
* numeric rates are `ℚ` (Python float arithmetic here is only `+ - * /` and
  `max`, and no claim depends on binary rounding);
* a Python expression that can raise `ZeroDivisionError` is embedded as an
  `Option`-valued function, `none` meaning the exception.
-/

/-- Python division `a / b`: raises `ZeroDivisionError` when `b = 0`,
embedded as `none`. -/
def pyDiv (a b : ℚ) : Option ℚ :=
  if b = 0 then none else some (a / b)

/-- Python `int(q)` applied to a float: truncation toward zero. -/
def pyInt (q : ℚ) : ℤ :=
  if 0 ≤ q then q.floor else -(-q).floor

/-! ## bot_filtered_analysis.py (`analyze_conversion_without_bots`)

`searchers`, `clickers`, `reservers` are the distinct-id sets built on lines
29-31; `funnel_users` (line 34) and the three rates (lines 43-45) follow.
None of the three divisions on lines 43-45 is guarded. -/

/-- Line 34: `funnel_users = searchers.intersection(clickers).intersection(reservers)`. -/
def botFunnelUsers (searchers clickers reservers : Finset ℕ) : Finset ℕ :=
  (searchers ∩ clickers) ∩ reservers

/-- Line 43: `len(searchers.intersection(clickers)) / len(searchers) * 100` (unguarded). -/
def botSearchToClickRate (searchers clickers : Finset ℕ) : Option ℚ :=
  (pyDiv ((searchers ∩ clickers).card : ℚ) (searchers.card : ℚ)).map (· * 100)

/-- Line 44: `len(searchers∩clickers∩reservers) / len(searchers∩clickers) * 100` (unguarded). -/
def botClickToReserveRate (searchers clickers reservers : Finset ℕ) : Option ℚ :=
  (pyDiv (((searchers ∩ clickers) ∩ reservers).card : ℚ)
      ((searchers ∩ clickers).card : ℚ)).map (· * 100)

/-- Line 45: `len(funnel_users) / len(searchers) * 100` (unguarded). -/
def botSearchToReserveRate (searchers clickers reservers : Finset ℕ) : Option ℚ :=
  (pyDiv ((botFunnelUsers searchers clickers reservers).card : ℚ)
      (searchers.card : ℚ)).map (· * 100)

/-! ## conversion_funnel_analysis.py (`analyze_search_to_reservation_conversion`)

Set-based part, lines 40-57.  `searched_and_clicked = searchers ∩ clickers`
(line 45), `searched_clicked_reserved = searched_and_clicked ∩ reservers`
(line 51).  Of the three rate computations on lines 55-57 only the middle one
guards its denominator. -/

/-- Line 55: `len(searched_and_clicked) / unique_searchers * 100` (unguarded). -/
def cfaSearchToClickRate (searchers clickers : Finset ℕ) : Option ℚ :=
  (pyDiv ((searchers ∩ clickers).card : ℚ) (searchers.card : ℚ)).map (· * 100)

/-- Line 56: `len(searched_clicked_reserved) / len(searched_and_clicked) * 100
if len(searched_and_clicked) > 0 else 0` — the one guarded division. -/
def cfaClickToReserveRate (searchers clickers reservers : Finset ℕ) : ℚ :=
  if 0 < (searchers ∩ clickers).card then
    (((searchers ∩ clickers) ∩ reservers).card : ℚ) / ((searchers ∩ clickers).card : ℚ) * 100
  else 0

/-- Line 57: `len(searched_clicked_reserved) / unique_searchers * 100` (unguarded). -/
def cfaSearchToReserveRate (searchers clickers reservers : Finset ℕ) : Option ℚ :=
  (pyDiv (((searchers ∩ clickers) ∩ reservers).card : ℚ) (searchers.card : ℚ)).map (· * 100)

/-! ### Time-windowed funnel, lines 68-96

The loop iterates over reservation rows; for each it filters the search and
click events of the same actor with timestamp at or before the reservation's
`created_at`, and appends a record when both filtered frames are non-empty. -/

/-- A search or listing-view event: `merged_amplitude_id` and `event_time`. -/
structure TimedEvent where
  actor : ℕ
  time : ℤ
deriving DecidableEq

/-- A reservation row: `renter_user_id`, `created_at`, `listing_id`. -/
structure ReservationRow where
  renter : ℕ
  created_at : ℤ
  listing_id : ℕ
deriving DecidableEq

/-- Lines 76-79 and 82-85: the events of the reserving actor with timestamp at
or before the reservation time (`user_searches` resp. `user_clicks`). -/
def eventsAtOrBefore (events : List TimedEvent) (r : ReservationRow) : List TimedEvent :=
  events.filter (fun e => e.actor == r.renter && decide (e.time ≤ r.created_at))

/-- Line 87: `len(user_searches) > 0 and len(user_clicks) > 0`. -/
def isTrueFunnelCompletion (searches clicks : List TimedEvent) (r : ReservationRow) : Bool :=
  decide (0 < (eventsAtOrBefore searches r).length) &&
    decide (0 < (eventsAtOrBefore clicks r).length)

/-- The reservations the lines 71-94 loop appends a record for. -/
def countedReservations (searches clicks : List TimedEvent)
    (reservations : List ReservationRow) : List ReservationRow :=
  reservations.filter (isTrueFunnelCompletion searches clicks)

/-- The record appended on lines 88-94 for one counted reservation. -/
structure FunnelUserRec where
  user_id : ℕ
  searches : ℕ
  clicks : ℕ
  reservation_time : ℤ
  listing_id : ℕ
deriving DecidableEq

/-- Lines 68-94: the `funnel_users` list built by the loop. -/
def cfaFunnelUserRecs (searches clicks : List TimedEvent)
    (reservations : List ReservationRow) : List FunnelUserRec :=
  (countedReservations searches clicks reservations).map (fun r =>
    { user_id := r.renter
      searches := (eventsAtOrBefore searches r).length
      clicks := (eventsAtOrBefore clicks r).length
      reservation_time := r.created_at
      listing_id := r.listing_id })

/-! ## funnel_analysis.py, lines 84-87

The module-level rates divide the distinct-id counts returned by the SQL query;
all four divisions are guarded with `if ... > 0 else 0`. -/

/-- Line 84: `(viewers / searchers * 100) if searchers > 0 else 0`. -/
def faSearchToViewRate (searchers viewers : ℕ) : ℚ :=
  if 0 < searchers then (viewers : ℚ) / (searchers : ℚ) * 100 else 0

/-- Line 85: `(reservers / viewers * 100) if viewers > 0 else 0`. -/
def faViewToReserveRate (viewers reservers : ℕ) : ℚ :=
  if 0 < viewers then (reservers : ℚ) / (viewers : ℚ) * 100 else 0

/-- Line 86: `(payers / reservers * 100) if reservers > 0 else 0`. -/
def faReserveToPayRate (reservers payers : ℕ) : ℚ :=
  if 0 < reservers then (payers : ℚ) / (reservers : ℚ) * 100 else 0

/-- Line 87: `(payers / searchers * 100) if searchers > 0 else 0`. -/
def faOverallRate (searchers payers : ℕ) : ℚ :=
  if 0 < searchers then (payers : ℚ) / (searchers : ℚ) * 100 else 0

/-! ## The cache table and the two bot filters (C2)

funnel_analysis.py lines 13-19 create `search_events` with every column
declared `TEXT` and insert the raw CSV strings, so `is_bot` holds the strings
`'True'` / `'False'`.  bot_filtered_analysis.py and funnel_analysis.py filter
with `WHERE is_bot = 'False'`; conversion_analysis.py filters the same table
name with `WHERE is_bot = 0`. -/

/-- A row of the all-TEXT `search_events` cache table: every cell is a string.
Only the two columns the claims touch are kept. -/
structure CacheRow where
  merged_amplitude_id : String
  is_bot : String
deriving DecidableEq

/-- SQLite comparison of a TEXT-affinity column with an integer literal: the
literal has no affinity, so TEXT affinity is applied to it and the comparison
is textual (SQLite datatype documentation, affinity rules for comparisons). -/
def sqliteEqTextInt (v : String) (n : ℤ) : Bool :=
  v == toString n

/-- The predicate `is_bot = 'False'` on the all-TEXT cache table. -/
def filterIsBotText (t : List CacheRow) : List CacheRow :=
  t.filter (fun r => r.is_bot == "False")

/-- The predicate `is_bot = 0` on the all-TEXT cache table, under SQLite's
TEXT-affinity comparison semantics. -/
def filterIsBotInt (t : List CacheRow) : List CacheRow :=
  t.filter (fun r => sqliteEqTextInt r.is_bot 0)

/-! ## search_characteristics_analysis.py (`analyze_by_category`, lines 35-59)

The nested function iterates `df[category_col].unique()` in first-appearance
order, skips `NaN` (`pd.isna`), takes the category's distinct-searcher set,
intersects it with the enclosing `funnel_users` set, computes the rate with a
guarded division, keeps the category when `total_searchers >= min_count`, and
finally sorts by `conversion_rate` descending (`sort_values(ascending=False)`).
A cell of the categorical column is `Option α`, `none` standing for `NaN`. -/

/-- One row of the search-event frame, restricted to the two columns
`analyze_by_category` reads: the actor id and the categorical cell. -/
structure EventRow (α : Type) where
  merged_amplitude_id : ℕ
  category : Option α
deriving DecidableEq

/-- One result row appended on lines 52-57. -/
structure CategoryResult (α : Type) where
  category : Option α
  total_searchers : ℕ
  funnel_users : ℕ
  conversion_rate : ℚ
deriving DecidableEq

/-- The distinct values of a column in order of first appearance
(pandas `Series.unique`). -/
def uniqueValues {β : Type} [DecidableEq β] (l : List β) : List β :=
  l.foldl (fun acc x => if x ∈ acc then acc else acc ++ [x]) []

/-- Lines 35-59: `analyze_by_category(df, category_col, min_count)`, with the
enclosing scope's `funnel_users` set passed explicitly. -/
def analyze_by_category {α : Type} [DecidableEq α] (df : List (EventRow α))
    (funnel_users : Finset ℕ) (min_count : ℕ) : List (CategoryResult α) :=
  let results := (uniqueValues (df.map (·.category))).filterMap (fun category =>
    match category with
    | none => none
    | some c =>
      let category_searches := df.filter (fun row => row.category == some c)
      let category_users := (category_searches.map (·.merged_amplitude_id)).toFinset
      let total_searchers := category_users.card
      let funnel_users_in_category := (category_users ∩ funnel_users).card
      let conversion_rate : ℚ :=
        if 0 < total_searchers then
          (funnel_users_in_category : ℚ) / (total_searchers : ℚ) * 100
        else 0
      if min_count ≤ total_searchers then
        some { category := some c
               total_searchers := total_searchers
               funnel_users := funnel_users_in_category
               conversion_rate := conversion_rate }
      else none)
  List.insertionSort (fun a b => b.conversion_rate ≤ a.conversion_rate) results

/-- The distinct-searcher population of a categorical cell value in a frame
(the `len(category_users)` of lines 44-47). -/
def categoryPopulation {α : Type} [DecidableEq α] (df : List (EventRow α))
    (cell : Option α) : ℕ :=
  ((df.filter (fun row => row.category == cell)).map (·.merged_amplitude_id)).toFinset.card

/-! ## search_position_conversion_rate_chart.py
(`create_search_position_conversion_rate_chart`, lines 27-67)

For each `position` in `range(1, 21)` the loop takes the distinct clickers at
that position (the `search_position` cell is a TEXT cell compared against
`str(position)`), then computes `conversion_rate = max(0, 8.0 - (position-1)*0.1)`
plus `random.uniform(-0.5, 0.5)` after `random.seed(position)`, and
`converting_users = int(total_clickers * conversion_rate / 100)`.  The
reservations frame is loaded (line 18) but never used by the computation.

The global PRNG is modelled abstractly: a state type `σ`, `seed : ℕ → σ`
(`random.seed(position)` replaces the state), and `uniform : σ → ℚ × σ`
(`random.uniform(-0.5, 0.5)` draws a value and advances the state). -/

/-- A row of the `listing_views` frame as the chart reads it: actor id and the
TEXT `search_position` cell. -/
structure ChartClick where
  actor : ℕ
  search_position : String
deriving DecidableEq

/-- One entry of `position_data` (lines 59-64). -/
structure PositionRow where
  search_position : ℕ
  total_clickers : ℕ
  converting_users : ℤ
  conversion_rate : ℚ
deriving DecidableEq

/-- The body of the lines 29-64 loop for one position, given the value `v` the
seeded PRNG draw produced. -/
def chartPositionRow (clicks : List ChartClick) (p : ℕ) (v : ℚ) : PositionRow :=
  let position_users := ((clicks.filter (fun c => c.search_position == toString p)).map
    (·.actor)).toFinset
  let total_clickers := position_users.card
  let conversion_rate := max 0 ((8 : ℚ) - ((p : ℚ) - 1) * (1 / 10)) + v
  { search_position := p
    total_clickers := total_clickers
    converting_users := pyInt ((total_clickers : ℚ) * conversion_rate / 100)
    conversion_rate := conversion_rate }

/-- The lines 29-64 loop threading the global PRNG state: each iteration first
reseeds (`random.seed(position)`), so the incoming state is replaced before the
draw. -/
def chartLoop {σ : Type} (seed : ℕ → σ) (uniform : σ → ℚ × σ)
    (clicks : List ChartClick) : List ℕ → σ → List PositionRow
  | [], _ => []
  | p :: ps, _ =>
    let drawn := uniform (seed p)
    chartPositionRow clicks p drawn.1 :: chartLoop seed uniform clicks ps drawn.2

/-- Lines 27-67: the `position_data` table of
`create_search_position_conversion_rate_chart`, for positions 1-20.  The
reservations argument mirrors the loaded-but-unused `reservations` frame. -/
def createSearchPositionRateChart {σ : Type} (seed : ℕ → σ) (uniform : σ → ℚ × σ)
    (s0 : σ) (clicks : List ChartClick) (reservations : List ReservationRow) :
    List PositionRow :=
  chartLoop seed uniform clicks (List.range' 1 20) s0

/-- The distinct renter ids of a reservations frame. -/
def reserversOf (reservations : List ReservationRow) : Finset ℕ :=
  (reservations.map (·.renter)).toFinset

/-- The rate the spec's invariant prescribes for the position chart, stated in
the spec's words for comparison: the ratio of the distinct clickers at the
position who reserved to all distinct clickers at the position, as a
percentage, 0 when the denominator set is empty. -/
def specDistinctActorPositionRate (clicks : List ChartClick)
    (reservations : List ReservationRow) (p : ℕ) : ℚ :=
  let position_users := ((clicks.filter (fun c => c.search_position == toString p)).map
    (·.actor)).toFinset
  if position_users.card = 0 then 0
  else ((position_users ∩ reserversOf reservations).card : ℚ) / (position_users.card : ℚ) * 100

/-! ## Theorems for the claims -/

/-- C7: on searchers `{1,2,3,4}`, viewers `{2,3,5}`, reservers `{3,4}`, the
set-intersection funnel of bot_filtered_analysis.py is `{3}` and the
search-to-reserve conversion rate is 25%. -/
theorem funnel_example_concrete :
    botFunnelUsers {1, 2, 3, 4} {2, 3, 5} {3, 4} = {3} ∧
      botSearchToReserveRate {1, 2, 3, 4} {2, 3, 5} {3, 4} = some 25 := by
  constructor
  · decide
  · have h1 : botFunnelUsers {1, 2, 3, 4} {2, 3, 5} {3, 4} = {3} := by decide
    have hc1 : ({3} : Finset ℕ).card = 1 := by decide
    have hc4 : ({1, 2, 3, 4} : Finset ℕ).card = 4 := by decide
    simp only [botSearchToReserveRate, h1, hc1, hc4, pyDiv]
    norm_num

/-- C8: the set-intersection funnel membership is order-independent — for all
searcher, viewer and reserver sets, intersecting the three sets in any of the
six orders yields the same funnel set. -/
theorem funnel_order_independent (S V R : Finset ℕ) :
    botFunnelUsers S V R = botFunnelUsers S R V ∧
      botFunnelUsers S V R = botFunnelUsers V S R ∧
      botFunnelUsers S V R = botFunnelUsers V R S ∧
      botFunnelUsers S V R = botFunnelUsers R S V ∧
      botFunnelUsers S V R = botFunnelUsers R V S := by
  refine ⟨?_, ?_, ?_, ?_, ?_⟩ <;>
    · ext x
      simp only [botFunnelUsers, Finset.mem_inter]
      tauto

/-- C2: the two bot filters applied to the same all-TEXT cache table are not
equivalent: on a table holding the usual `'False'`/`'True'` strings, the filter
`is_bot = 'False'` keeps the non-bot row while the filter `is_bot = 0`
(compared textually under SQLite TEXT affinity) keeps nothing. -/
theorem bot_filters_not_equivalent :
    filterIsBotText [⟨"u1", "False"⟩, ⟨"u2", "True"⟩] ≠
        filterIsBotInt [⟨"u1", "False"⟩, ⟨"u2", "True"⟩] ∧
      filterIsBotText [⟨"u1", "False"⟩, ⟨"u2", "True"⟩] = [⟨"u1", "False"⟩] ∧
      filterIsBotInt [⟨"u1", "False"⟩, ⟨"u2", "True"⟩] = [] := by
  refine ⟨?_, ?_, ?_⟩ <;> decide

/-- C1, counterexample: with an empty searcher population the search-to-click
divisions of bot_filtered_analysis.py (line 43) and of
conversion_funnel_analysis.py (line 55) are unguarded and raise
`ZeroDivisionError` (embedded `none`) instead of producing the rate 0. -/
theorem unguarded_rate_raises_on_empty :
    botSearchToClickRate ∅ ∅ = none ∧
      cfaSearchToClickRate ∅ ∅ = none ∧
      botSearchToClickRate ∅ ∅ ≠ some 0 := by
  refine ⟨?_, ?_, ?_⟩ <;> decide

/-- C1, amended: when the upstream population is empty, the four module-level
rates of funnel_analysis.py and the click-to-reserve rate of
conversion_funnel_analysis.py substitute 0, while the remaining stage-to-stage
divisions of conversion_funnel_analysis.py and all three of
bot_filtered_analysis.py are unguarded and raise `ZeroDivisionError`. -/
theorem zero_denominator_behaviour (S V R : Finset ℕ)
    (searchers viewers reservers payers : ℕ) :
    ((S ∩ V).card = 0 → cfaClickToReserveRate S V R = 0) ∧
      (searchers = 0 → faSearchToViewRate searchers viewers = 0) ∧
      (viewers = 0 → faViewToReserveRate viewers reservers = 0) ∧
      (reservers = 0 → faReserveToPayRate reservers payers = 0) ∧
      (searchers = 0 → faOverallRate searchers payers = 0) ∧
      (S.card = 0 → cfaSearchToClickRate S V = none) ∧
      (S.card = 0 → cfaSearchToReserveRate S V R = none) ∧
      (S.card = 0 → botSearchToClickRate S V = none) ∧
      ((S ∩ V).card = 0 → botClickToReserveRate S V R = none) ∧
      (S.card = 0 → botSearchToReserveRate S V R = none) := by
  refine ⟨?_, ?_, ?_, ?_, ?_, ?_, ?_, ?_, ?_, ?_⟩ <;> intro h <;>
    simp [cfaClickToReserveRate, faSearchToViewRate, faViewToReserveRate,
      faReserveToPayRate, faOverallRate, cfaSearchToClickRate,
      cfaSearchToReserveRate, botSearchToClickRate, botClickToReserveRate,
      botSearchToReserveRate, botFunnelUsers, pyDiv, h]

/-- Witness for the amended C1 theorem at concrete empty inputs. -/
theorem zero_denominator_behaviour_witness :
    cfaClickToReserveRate ∅ ∅ ∅ = 0 ∧
      faSearchToViewRate 0 0 = 0 ∧
      faViewToReserveRate 0 0 = 0 ∧
      faReserveToPayRate 0 7 = 0 ∧
      faOverallRate 0 7 = 0 ∧
      cfaSearchToClickRate ∅ ∅ = none ∧
      cfaSearchToReserveRate ∅ ∅ ∅ = none ∧
      botSearchToClickRate ∅ ∅ = none ∧
      botClickToReserveRate ∅ ∅ ∅ = none ∧
      botSearchToReserveRate ∅ ∅ ∅ = none := by
  obtain ⟨h1, h2, h3, h4, h5, h6, h7, h8, h9, h10⟩ :=
    zero_denominator_behaviour ∅ ∅ ∅ 0 0 0 7
  exact ⟨h1 (by decide), h2 rfl, h3 rfl, h4 rfl, h5 rfl, h6 (by decide),
    h7 (by decide), h8 (by decide), h9 (by decide), h10 (by decide)⟩

/-- C4: in the time-windowed funnel variant, a reservation row is counted as a
true funnel completion if and only if the reserving actor has at least one
search event and at least one view event with timestamp at or before the
reservation's `created_at`. -/
theorem counted_iff_search_and_view_at_or_before (searches clicks : List TimedEvent)
    (reservations : List ReservationRow) (r : ReservationRow)
    (hr : r ∈ reservations) :
    r ∈ countedReservations searches clicks reservations ↔
      ((∃ e ∈ searches, e.actor = r.renter ∧ e.time ≤ r.created_at) ∧
        (∃ e ∈ clicks, e.actor = r.renter ∧ e.time ≤ r.created_at)) := by
  simp only [countedReservations, List.mem_filter, hr, true_and,
    isTrueFunnelCompletion, Bool.and_eq_true, decide_eq_true_eq, eventsAtOrBefore,
    List.length_pos_iff_exists_mem, beq_iff_eq]

/-- Witness for the C4 theorem: a concrete reservation preceded by one search
and one click of the same actor is counted. -/
theorem counted_iff_witness :
    (⟨1, 10, 99⟩ : ReservationRow) ∈
      countedReservations [⟨1, 5⟩] [⟨1, 6⟩] [⟨1, 10, 99⟩] :=
  (counted_iff_search_and_view_at_or_before [⟨1, 5⟩] [⟨1, 6⟩] [⟨1, 10, 99⟩]
    ⟨1, 10, 99⟩ (by decide)).mpr (by decide)

instance {α : Type} : IsTotal (CategoryResult α)
    (fun a b => b.conversion_rate ≤ a.conversion_rate) :=
  ⟨fun a b => le_total b.conversion_rate a.conversion_rate⟩

instance {α : Type} : IsTrans (CategoryResult α)
    (fun a b => b.conversion_rate ≤ a.conversion_rate) :=
  ⟨fun _ _ _ h1 h2 => le_trans h2 h1⟩

/-- Inversion helper: every result row of `analyze_by_category` comes from a
non-missing category value, its `total_searchers` field is that category's
distinct-searcher population, and the population meets the threshold. -/
theorem mem_analyze_by_category {α : Type} [DecidableEq α] {df : List (EventRow α)}
    {funnel : Finset ℕ} {min_count : ℕ} {row : CategoryResult α}
    (hrow : row ∈ analyze_by_category df funnel min_count) :
    ∃ c, row.category = some c ∧
      row.total_searchers = categoryPopulation df (some c) ∧
      min_count ≤ row.total_searchers := by
  unfold analyze_by_category at hrow
  rw [List.mem_insertionSort, List.mem_filterMap] at hrow
  obtain ⟨cell, hcl, hmap⟩ := hrow
  cases cell with
  | none => simp at hmap
  | some c =>
    refine ⟨c, ?_⟩
    dsimp only at hmap
    split at hmap
    · injection hmap with h
      subst h
      exact ⟨rfl, rfl, by assumption⟩
    · exact absurd hmap (by simp)

/-- C5: the segmented conversion analysis never returns a category whose
distinct-searcher population is below the minimum-population threshold. -/
theorem results_meet_min_count {α : Type} [DecidableEq α] (df : List (EventRow α))
    (funnel : Finset ℕ) (min_count : ℕ) (row : CategoryResult α)
    (hrow : row ∈ analyze_by_category df funnel min_count) :
    min_count ≤ row.total_searchers ∧
      row.total_searchers = categoryPopulation df row.category := by
  obtain ⟨c, hc, hpop, hmin⟩ := mem_analyze_by_category hrow
  rw [hc]
  exact ⟨hmin, hpop⟩

/-- C10: the segmented conversion analysis silently skips missing (`NaN`)
category values — no returned row carries a missing category. -/
theorem results_skip_missing_category {α : Type} [DecidableEq α]
    (df : List (EventRow α)) (funnel : Finset ℕ) (min_count : ℕ)
    (row : CategoryResult α)
    (hrow : row ∈ analyze_by_category df funnel min_count) :
    row.category ≠ none := by
  obtain ⟨c, hc, -, -⟩ := mem_analyze_by_category hrow
  rw [hc]
  exact Option.some_ne_none c

/-- C6: the segmented conversion analysis returns its per-category results
ordered by descending conversion rate. -/
theorem results_sorted_by_descending_rate {α : Type} [DecidableEq α]
    (df : List (EventRow α)) (funnel : Finset ℕ) (min_count : ℕ) :
    List.Sorted (fun a b => b.conversion_rate ≤ a.conversion_rate)
      (analyze_by_category df funnel min_count) :=
  List.sorted_insertionSort _ _

/-- Witness for the C5 theorem: a two-searcher category meeting the threshold 2
appears in the output and its population meets the threshold. -/
theorem results_meet_min_count_witness :
    2 ≤ (⟨some 7, 2, 1, 50⟩ : CategoryResult ℕ).total_searchers ∧
      (⟨some 7, 2, 1, 50⟩ : CategoryResult ℕ).total_searchers =
        categoryPopulation [⟨1, some 7⟩, ⟨2, some 7⟩]
          (⟨some 7, 2, 1, 50⟩ : CategoryResult ℕ).category :=
  results_meet_min_count [⟨1, some 7⟩, ⟨2, some 7⟩] {1} 2 ⟨some 7, 2, 1, 50⟩
    (by norm_num [analyze_by_category, uniqueValues, List.filterMap,
      CategoryResult.mk.injEq])

/-- Witness for the C10 theorem: on a frame with two missing category cells the
returned row carries the one non-missing category. -/
theorem results_skip_missing_category_witness :
    (⟨some 3, 1, 0, 0⟩ : CategoryResult ℕ).category ≠ none :=
  results_skip_missing_category [⟨1, none⟩, ⟨2, some 3⟩, ⟨3, none⟩] ∅ 0
    ⟨some 3, 1, 0, 0⟩
    (by norm_num [analyze_by_category, uniqueValues, List.filterMap,
      CategoryResult.mk.injEq])

/-- C3, counterexample: no PRNG behaviour makes the search-position chart's
reported conversion rates equal to the stage-appropriate ratio of
distinct-actor set sizes (clickers-at-position who reserved over all
clickers-at-position) — on one clicker the chart reports the same rates
whether that clicker reserved or not, while the set-size ratio moves from 0%
to 100%. -/
theorem chart_rates_not_set_ratio :
    ¬ ∃ (σ : Type) (seed : ℕ → σ) (uniform : σ → ℚ × σ) (s0 : σ),
        ∀ (clicks : List ChartClick) (reservations : List ReservationRow),
          (createSearchPositionRateChart seed uniform s0 clicks reservations).map
              (fun row => row.conversion_rate) =
            (List.range' 1 20).map (specDistinctActorPositionRate clicks reservations) := by
  rintro ⟨σ, seed, uniform, s0, h⟩
  have h1 := h [⟨1, "1"⟩] []
  have h2 := h [⟨1, "1"⟩] [⟨1, 0, 0⟩]
  have h12 : (List.range' 1 20).map (specDistinctActorPositionRate [⟨1, "1"⟩] []) =
      (List.range' 1 20).map (specDistinctActorPositionRate [⟨1, "1"⟩] [⟨1, 0, 0⟩]) :=
    h1.symm.trans h2
  have h3 : specDistinctActorPositionRate [⟨1, "1"⟩] [] 1 =
      specDistinctActorPositionRate [⟨1, "1"⟩] [⟨1, 0, 0⟩] 1 := by
    have hh := congrArg (fun l => l.headD (0 : ℚ)) h12
    simpa [List.range'] using hh
  have ht : toString (1 : ℕ) = "1" := rfl
  rw [show specDistinctActorPositionRate [⟨1, "1"⟩] [] 1 = 0 from by
        norm_num [specDistinctActorPositionRate, reserversOf],
      show specDistinctActorPositionRate [⟨1, "1"⟩] [⟨1, 0, 0⟩] 1 = 100 from by
        norm_num [specDistinctActorPositionRate, reserversOf, ht]] at h3
  exact absurd h3 (by norm_num)

/-- C3, amended: the search-position chart's reported conversion rates are not
ratios of distinct-actor set sizes — for every PRNG behaviour they are the
fabricated position formula `max(0, 8.0 - (position-1)*0.1)` plus the seeded
per-position draw, and the whole table is independent of the reservations
input. -/
theorem chart_rates_are_fabricated_formula {σ : Type} (seed : ℕ → σ)
    (uniform : σ → ℚ × σ) (s0 : σ) (clicks : List ChartClick)
    (res1 res2 : List ReservationRow) :
    (createSearchPositionRateChart seed uniform s0 clicks res1 =
        createSearchPositionRateChart seed uniform s0 clicks res2) ∧
      (createSearchPositionRateChart seed uniform s0 clicks res1).map
          (fun row => row.conversion_rate) =
        (List.range' 1 20).map
          (fun (p : ℕ) => max 0 ((8 : ℚ) - ((p : ℚ) - 1) * (1 / 10)) + (uniform (seed p)).1) :=
  ⟨rfl, rfl⟩

/-- C9: a chart run's output is independent of the incoming PRNG state —
because `random.seed(position)` reseeds before every draw, two runs over
identical input files produce the identical position table, so the computation
is deterministic and idempotent. -/
theorem chart_run_deterministic {σ : Type} (seed : ℕ → σ) (uniform : σ → ℚ × σ)
    (s1 s2 : σ) (clicks : List ChartClick) (reservations : List ReservationRow) :
    createSearchPositionRateChart seed uniform s1 clicks reservations =
      createSearchPositionRateChart seed uniform s2 clicks reservations := rfl
